import Mathlib

/-!
Verification of the authentication/authorization core of the Event-Ease
user-management API, shallowly embedded from `src/app/core/security.py`
and `src/app/api/api_user.py`.

Library dependencies of the source (passlib, PyJWT, SQLAlchemy query,
FastAPI HTTPException) are modelled by explicit Lean data: a Python
exception becomes an `Except.error`, the user table becomes a list of
records, wall-clock time and the bcrypt salt become explicit parameters.
-/

deriving instance DecidableEq for Except

namespace EventEase

/-! ## Model of passlib, CryptContext with schemes = [bcrypt] -/

/-- A Python string holding a password hash, classified by whether passlib
can identify it as a bcrypt hash (salt and digest components) or not. -/
inductive HashString where
  | bcrypt (salt digest : String)
  | malformed (raw : String)
deriving Repr, DecidableEq

/-- Error raised by passlib when a hash string cannot be identified
(passlib.exc.UnknownHashError, a ValueError subclass). -/
inductive PasslibError where
  | unknownHash
deriving Repr, DecidableEq

/-- Model of CryptContext.verify for the bcrypt scheme: a recognized hash is
checked by recomputing the digest of the candidate password under the salt
stored in the hash and comparing; an unrecognized hash raises
UnknownHashError. The bcrypt key-derivation itself is external native code,
so it is passed in as the function digestF from salt and password to digest. -/
def cryptContextVerify (digestF : String → String → String)
    (password : String) : HashString → Except PasslibError Bool
  | .bcrypt salt digest => .ok (digestF salt password == digest)
  | .malformed _ => .error .unknownHash

/-- Model of CryptContext.hash for the bcrypt scheme: passlib draws a fresh
random salt (passed in explicitly here) and stores salt and digest in the
produced hash string. -/
def cryptContextHash (digestF : String → String → String)
    (salt password : String) : HashString :=
  .bcrypt salt (digestF salt password)

/-- Embedding of verify_password (src/app/core/security.py, lines 22-23):
a direct delegation to pwd_context.verify with no exception handling. -/
def verify_password (digestF : String → String → String)
    (password : String) (hash_password : HashString) : Except PasslibError Bool :=
  cryptContextVerify digestF password hash_password

/-- Embedding of get_password_hash (src/app/core/security.py, lines 26-27):
a direct delegation to pwd_context.hash. -/
def get_password_hash (digestF : String → String → String)
    (salt password : String) : HashString :=
  cryptContextHash digestF salt password

/-! ## Model of PyJWT encode and decode -/

/-- The claims relevant to this core: the subject claim (absent when the
payload dict has no sub key) and the expiry claim (absent when no exp key),
with exp in seconds. -/
structure Claims where
  sub : Option String
  exp : Option Int
deriving Repr, DecidableEq

/-- The information a well-formed signed JWT determines: its payload and the
key and algorithm it was signed with. -/
structure EncodedToken where
  claims : Claims
  key : String
  alg : String
deriving Repr, DecidableEq

/-- A Python string presented as a token: either a well-formed JWT or a
string that fails JWT decoding outright. -/
inductive TokenStr where
  | encoded (t : EncodedToken)
  | garbage (raw : String)
deriving Repr, DecidableEq

/-- The two PyJWT failure classes relevant here, both subclasses of
PyJWTError: ExpiredSignatureError, and every other decode failure
(malformed encoding, signature mismatch, disallowed algorithm). -/
inductive JwtError where
  | expiredSignature
  | invalidToken
deriving Repr, DecidableEq

/-- Model of jwt.encode: signs the claim set with the given key and
algorithm. -/
def jwtEncode (claims : Claims) (key alg : String) : TokenStr :=
  .encoded ⟨claims, key, alg⟩

/-- Model of jwt.decode(token, key, algorithms): a non-JWT string or a
signature/algorithm mismatch raises a PyJWTError other than expiry; with a
valid signature, PyJWT validates the exp claim and raises
ExpiredSignatureError when exp is less than or equal to the current time
(no leeway is configured in the source); otherwise it returns the payload. -/
def jwtDecode (key : String) (algorithms : List String) (now : Int) :
    TokenStr → Except JwtError Claims
  | .garbage _ => .error .invalidToken
  | .encoded t =>
    if t.key = key ∧ t.alg ∈ algorithms then
      match t.claims.exp with
      | some e => if e ≤ now then .error .expiredSignature else .ok t.claims
      | none => .ok t.claims
    else .error .invalidToken

/-! ## Configuration and data model -/

/-- The configuration fields of app.core.config.settings consumed by
security.py, with the default token lifetime in seconds. -/
structure Settings where
  SECRET_KEY : String
  SECURITY_ALGORITHM : String
  ACCESS_TOKEN_EXPIRE_SECONDS : Int
deriving Repr, DecidableEq

/-- Modelled from the spec: the User record (app.models.model_user.User is
not under src/). The spec data model gives a Principal an immutable unique
id, a unique username used as token subject, and an active/locked status
flag; the password hash column plays no role in the claims below. -/
structure User where
  id : Int
  user_name : String
  is_active : Bool
deriving Repr, DecidableEq

/-- Model of fastapi.HTTPException as raised by security.py: a status code
and a detail message. -/
structure HTTPException where
  status_code : Nat
  detail : String
deriving Repr, DecidableEq

/-! ## security.py: token issuance, identity resolution, permission check -/

/-- Model of the Python expression (expires_delta or timedelta(seconds=d)):
None and the zero timedelta are falsy, every other timedelta (including
negative ones) is truthy. Durations are in seconds. -/
def timedeltaOrDefault (expires_delta : Option Int) (d : Int) : Int :=
  match expires_delta with
  | none => d
  | some v => if v = 0 then d else v

/-- Embedding of create_access_token (src/app/core/security.py, lines
30-38): copies the payload dict, sets exp to utcnow plus the delta chosen
by Python truthiness, and signs with the configured secret and algorithm.
Wall-clock utcnow is the explicit parameter now. -/
def create_access_token (settings : Settings) (now : Int) (data : Claims)
    (expires_delta : Option Int) : TokenStr :=
  let expire := now +
    timedeltaOrDefault expires_delta settings.ACCESS_TOKEN_EXPIRE_SECONDS
  jwtEncode { data with exp := some expire }
    settings.SECRET_KEY settings.SECURITY_ALGORITHM

/-- Embedding of get_current_user (src/app/core/security.py, lines 41-66).
The try block decodes the token and reads the sub claim; a PyJWTError of
any kind is caught and mapped to HTTPException 403 with detail Token không
hợp lệ; a missing sub raises HTTPException 401 (not caught by the except
clause); then the session queries the user table filtered only on
user_name and takes the first match, failing with HTTPException 403 when
none exists. The database session is modelled as the list db of user rows
in table order. -/
def get_current_user (settings : Settings) (now : Int) (db : List User)
    (credentials : TokenStr) : Except HTTPException User :=
  match jwtDecode settings.SECRET_KEY [settings.SECURITY_ALGORITHM] now credentials with
  | .error _ => .error ⟨403, "Token không hợp lệ"⟩
  | .ok payload =>
    match payload.sub with
    | none => .error ⟨401, "Không thể xác thực thông tin đăng nhập"⟩
    | some username =>
      match db.find? (fun u => u.user_name == username) with
      | none => .error ⟨403, "Không thể xác thực thông tin đăng nhập 3"⟩
      | some user => .ok user

/-- The token-verification phase of get_current_user (src/app/core/security.py,
lines 45-58): decode plus subject extraction, before any database access.
get_current_user_decomposes below ties it to get_current_user. -/
def verify_token (settings : Settings) (now : Int) (credentials : TokenStr) :
    Except HTTPException String :=
  match jwtDecode settings.SECRET_KEY [settings.SECURITY_ALGORITHM] now credentials with
  | .error _ => .error ⟨403, "Token không hợp lệ"⟩
  | .ok payload =>
    match payload.sub with
    | none => .error ⟨401, "Không thể xác thực thông tin đăng nhập"⟩
    | some username => .ok username

/-- The database phase of get_current_user (src/app/core/security.py, lines
60-66): the first row whose user_name equals the resolved subject. -/
def lookup_user (db : List User) (username : String) : Except HTTPException User :=
  match db.find? (fun u => u.user_name == username) with
  | none => .error ⟨403, "Không thể xác thực thông tin đăng nhập 3"⟩
  | some user => .ok user

/-- Embedding of the checker closure returned by check_permissions
(src/app/core/security.py, lines 69-80): fetch the role names of the
already-resolved current user from the role repository, raise HTTPException
403 with detail Bạn không có quyền truy cập unless some user role occurs in
required_roles, else return the user. The repository dependency is the
function get_role_names_by_user_id. -/
def check_permissions (required_roles : List String)
    (get_role_names_by_user_id : Int → List String)
    (current_user : User) : Except HTTPException User :=
  let user_roles := get_role_names_by_user_id current_user.id
  if !(user_roles.any fun role => required_roles.contains role) then
    .error ⟨403, "Bạn không có quyền truy cập"⟩
  else
    .ok current_user

/-! ## api_user.py: error forwarding of the route handlers -/

/-- A Python exception escaping the service layer inside a route handler
try block, recorded as the pair of the string str(e) and the string
traceback.format_exc() produces at the handler. -/
structure PyException where
  message : String
  traceback : String
deriving Repr, DecidableEq

/-- Model of app.helpers.exception_handler.CustomException as raised by the
handlers: an HTTP status, a code string, and a message string that becomes
the response body detail. -/
structure CustomException where
  http_code : Nat
  code : String
  message : String
deriving Repr, DecidableEq

/-- Embedding of the handler get (src/app/api/api_user.py, lines 28-41):
its try body (get_all_user plus paginate) is the injected computation run;
on success the page is returned, and on any exception e the handler raises
CustomException with http_code 400, code 400, and the f-string message
str(e) colon traceback. -/
def api_user_get {α : Type} (run : Except PyException α) :
    Except CustomException α :=
  match run with
  | .ok users => .ok users
  | .error e => .error ⟨400, "400", e.message ++ ": " ++ e.traceback⟩

/-- Embedding of the handler get_roles_of_user (src/app/api/api_user.py,
lines 66-79): its try body (get_roles_by_user_id plus response building) is
the injected computation run; its except clause is identical to that of the
handler get. -/
def api_user_get_roles_of_user {α : Type} (run : Except PyException α) :
    Except CustomException α :=
  match run with
  | .ok data => .ok data
  | .error e => .error ⟨400, "400", e.message ++ ": " ++ e.traceback⟩

/-! ## Claim theorems -/

/-- Decomposition sanity lemma: get_current_user is exactly its
token-verification phase followed by its database phase. -/
theorem get_current_user_decomposes (settings : Settings) (now : Int)
    (db : List User) (credentials : TokenStr) :
    get_current_user settings now db credentials =
      (verify_token settings now credentials).bind (lookup_user db) := by
  cases hdec : jwtDecode settings.SECRET_KEY [settings.SECURITY_ALGORITHM] now credentials with
  | error e => simp [get_current_user, verify_token, lookup_user, hdec, Except.bind]
  | ok payload =>
    cases hsub : payload.sub with
    | none => simp [get_current_user, verify_token, lookup_user, hdec, hsub, Except.bind]
    | some username =>
      simp [get_current_user, verify_token, lookup_user, hdec, hsub, Except.bind]

/-- C1 counterexample: with the empty required-role set, check_permissions
rejects a principal even though the role repository reports the role ADMIN
for it, so authorize with an empty required set does not succeed
unconditionally. -/
theorem check_permissions_empty_required_rejects_admin :
    check_permissions [] (fun _ => ["ADMIN"]) ⟨1, "alice", true⟩ =
      .error ⟨403, "Bạn không có quyền truy cập"⟩ ∧
    check_permissions [] (fun _ => ["ADMIN"]) ⟨1, "alice", true⟩ ≠
      .ok ⟨1, "alice", true⟩ := by
  refine ⟨rfl, fun h => ?_⟩
  exact Except.noConfusion h

/-- C1 amended: with an empty required-role set, check_permissions fails
with HTTPException 403 Bạn không có quyền truy cập for every principal and
every role repository, because no role can occur in the empty required
list. -/
theorem check_permissions_empty_required_always_forbidden
    (get_role_names_by_user_id : Int → List String) (u : User) :
    check_permissions [] get_role_names_by_user_id u =
      .error ⟨403, "Bạn không có quyền truy cập"⟩ := by
  simp [check_permissions]

/-- C4: for every non-empty required-role set, check_permissions returns
the principal exactly when some role the repository reports for the id of
the principal lies in the required set, and otherwise fails with
HTTPException 403 Bạn không có quyền truy cập. -/
theorem check_permissions_ok_iff_roles_intersect
    (required_roles : List String) (get_role_names_by_user_id : Int → List String)
    (u : User) (hne : required_roles ≠ []) :
    (check_permissions required_roles get_role_names_by_user_id u = .ok u ↔
      ∃ role, role ∈ get_role_names_by_user_id u.id ∧ role ∈ required_roles) ∧
    ((¬ ∃ role, role ∈ get_role_names_by_user_id u.id ∧ role ∈ required_roles) →
      check_permissions required_roles get_role_names_by_user_id u =
        .error ⟨403, "Bạn không có quyền truy cập"⟩) := by
  have hany : ((get_role_names_by_user_id u.id).any fun role =>
      required_roles.contains role) = true ↔
      ∃ role, role ∈ get_role_names_by_user_id u.id ∧ role ∈ required_roles := by
    rw [List.any_eq_true]
    constructor
    · rintro ⟨r, hr, hc⟩
      exact ⟨r, hr, List.elem_iff.mp hc⟩
    · rintro ⟨r, hr, hc⟩
      exact ⟨r, hr, List.elem_iff.mpr hc⟩
  cases h : ((get_role_names_by_user_id u.id).any fun role =>
      required_roles.contains role) with
  | false =>
    have hno : ¬ ∃ role, role ∈ get_role_names_by_user_id u.id ∧ role ∈ required_roles := by
      rw [← hany, h]
      simp
    constructor
    · simp [check_permissions, h, hno]
    · intro _
      simp only [check_permissions]
      rw [h]
      rfl
  | true =>
    constructor
    · simp [check_permissions, h, hany.mp h]
    · intro hc
      exact absurd (hany.mp h) hc

/-- C4 witness: the principal alice with repository role ADMIN is granted
access against the required set containing ADMIN and EDITOR. -/
theorem check_permissions_ok_iff_roles_intersect_witness :
    check_permissions ["ADMIN", "EDITOR"] (fun _ => ["ADMIN"]) ⟨1, "alice", true⟩ =
      .ok ⟨1, "alice", true⟩ :=
  (check_permissions_ok_iff_roles_intersect ["ADMIN", "EDITOR"] (fun _ => ["ADMIN"])
      ⟨1, "alice", true⟩ (by decide)).1.mpr ⟨"ADMIN", by decide, by decide⟩

/-- C9: verifying a plaintext against its own freshly produced hash
succeeds with true, for every bcrypt digest function and every salt drawn
by passlib. -/
theorem verify_password_of_get_password_hash
    (digestF : String → String → String) (salt p : String) :
    verify_password digestF p (get_password_hash digestF salt p) = .ok true := by
  simp [verify_password, get_password_hash, cryptContextVerify, cryptContextHash]

/-- C6 counterexample: on a hash string passlib cannot identify,
verify_password propagates UnknownHashError rather than returning false. -/
theorem verify_password_malformed_counterexample :
    verify_password (fun salt p => salt ++ p) "password" (.malformed "plainhash") =
      .error .unknownHash ∧
    verify_password (fun salt p => salt ++ p) "password" (.malformed "plainhash") ≠
      .ok false := by
  refine ⟨rfl, fun h => ?_⟩
  exact Except.noConfusion h

/-- C6 amended: for every plaintext and every malformed second argument,
verify_password raises, propagating the UnknownHashError from passlib,
instead of returning false. -/
theorem verify_password_malformed_propagates
    (digestF : String → String → String) (password raw : String) :
    verify_password digestF password (.malformed raw) = .error .unknownHash := rfl

/-- C10: a zero expires_delta is falsy in Python, so create_access_token
silently falls back to the configured default lifetime: the issued token
equals the one issued with no delta at all, and its exp claim is now plus
ACCESS_TOKEN_EXPIRE_SECONDS. -/
theorem create_access_token_zero_delta_uses_default
    (settings : Settings) (now : Int) (data : Claims) :
    create_access_token settings now data (some 0) =
      create_access_token settings now data none ∧
    create_access_token settings now data (some 0) =
      .encoded ⟨⟨data.sub, some (now + settings.ACCESS_TOKEN_EXPIRE_SECONDS)⟩,
        settings.SECRET_KEY, settings.SECURITY_ALGORITHM⟩ := by
  constructor
  · rfl
  · simp [create_access_token, jwtEncode, timedeltaOrDefault]

/-- C2 counterexample: a token with valid signature and future expiry whose
subject names the disabled row alice (is_active false) resolves to that
row: get_current_user returns the disabled principal instead of the
denial it uses for an unknown subject. -/
theorem get_current_user_returns_disabled_user :
    get_current_user ⟨"secret", "HS256", 3600⟩ 0 [⟨1, "alice", false⟩]
        (.encoded ⟨⟨some "alice", some 100⟩, "secret", "HS256"⟩) =
      .ok ⟨1, "alice", false⟩ ∧
    get_current_user ⟨"secret", "HS256", 3600⟩ 0 [⟨1, "alice", false⟩]
        (.encoded ⟨⟨some "alice", some 100⟩, "secret", "HS256"⟩) ≠
      .error ⟨403, "Không thể xác thực thông tin đăng nhập 3"⟩ := by
  refine ⟨by decide, fun h => ?_⟩
  rw [show get_current_user ⟨"secret", "HS256", 3600⟩ 0 [⟨1, "alice", false⟩]
      (.encoded ⟨⟨some "alice", some 100⟩, "secret", "HS256"⟩) =
      .ok ⟨1, "alice", false⟩ by decide] at h
  exact Except.noConfusion h

/-- C2 amended: get_current_user consults only the user_name column of the
user table. Given a token that decodes to a payload with subject username,
it returns the first row whose user_name matches, whatever the status flag
of that row, and it produces the denial HTTPException 403 Không thể xác
thực thông tin đăng nhập 3 exactly when no row matches. -/
theorem get_current_user_checks_only_username
    (settings : Settings) (now : Int) (db : List User) (credentials : TokenStr)
    (payload : Claims) (username : String)
    (hdec : jwtDecode settings.SECRET_KEY [settings.SECURITY_ALGORITHM] now credentials =
      .ok payload)
    (hsub : payload.sub = some username) :
    (∀ u : User, db.find? (fun r => r.user_name == username) = some u →
      get_current_user settings now db credentials = .ok u) ∧
    (db.find? (fun r => r.user_name == username) = none →
      get_current_user settings now db credentials =
        .error ⟨403, "Không thể xác thực thông tin đăng nhập 3"⟩) := by
  constructor
  · intro u hfind
    simp [get_current_user, hdec, hsub, hfind]
  · intro hfind
    simp [get_current_user, hdec, hsub, hfind]

/-- C2 witness: the disabled row alice is found and returned for a valid
token with subject alice. -/
theorem get_current_user_checks_only_username_witness :
    get_current_user ⟨"secret", "HS256", 3600⟩ 0 [⟨1, "alice", false⟩]
        (.encoded ⟨⟨some "alice", some 100⟩, "secret", "HS256"⟩) =
      .ok ⟨1, "alice", false⟩ :=
  (get_current_user_checks_only_username ⟨"secret", "HS256", 3600⟩ 0
      [⟨1, "alice", false⟩] (.encoded ⟨⟨some "alice", some 100⟩, "secret", "HS256"⟩)
      ⟨some "alice", some 100⟩ "alice" (by decide) rfl).1
    ⟨1, "alice", false⟩ (by decide)

/-- C5 counterexample: at time 1000 a well-signed token that expired at 500
and a malformed token raise different PyJWT exception classes, yet
get_current_user produces the identical HTTPException for both, so the two
denials are not distinguishable by their diagnostic code in the produced
error. -/
theorem expired_and_invalid_tokens_same_denial :
    jwtDecode "secret" ["HS256"] 1000
        (.encoded ⟨⟨some "alice", some 500⟩, "secret", "HS256"⟩) =
      .error .expiredSignature ∧
    jwtDecode "secret" ["HS256"] 1000 (.garbage "not-a-jwt") =
      .error .invalidToken ∧
    get_current_user ⟨"secret", "HS256", 3600⟩ 1000 []
        (.encoded ⟨⟨some "alice", some 500⟩, "secret", "HS256"⟩) =
      get_current_user ⟨"secret", "HS256", 3600⟩ 1000 [] (.garbage "not-a-jwt") := by
  refine ⟨by decide, by decide, by decide⟩

/-- C5 amended: jwt.decode does raise ExpiredSignatureError exactly when
the signature and algorithm verify and the embedded exp claim is at most
the current time, and other failures raise a different PyJWTError kind;
but get_current_user catches every PyJWTError with one clause and maps
both kinds to the identical HTTPException 403 Token không hợp lệ, so the
denial produced for an expired token is indistinguishable from the one for
an invalid token. -/
theorem jwt_error_kinds_collapse_in_get_current_user
    (settings : Settings) (now : Int) (db : List User) (t : EncodedToken) :
    (jwtDecode settings.SECRET_KEY [settings.SECURITY_ALGORITHM] now (.encoded t) =
        .error .expiredSignature ↔
      (t.key = settings.SECRET_KEY ∧ t.alg ∈ [settings.SECURITY_ALGORITHM] ∧
        ∃ e, t.claims.exp = some e ∧ e ≤ now)) ∧
    (∀ credentials : TokenStr, ∀ k : JwtError,
      jwtDecode settings.SECRET_KEY [settings.SECURITY_ALGORITHM] now credentials =
        .error k →
      get_current_user settings now db credentials =
        .error ⟨403, "Token không hợp lệ"⟩) := by
  constructor
  · by_cases hk : t.key = settings.SECRET_KEY <;>
      by_cases ha : t.alg = settings.SECURITY_ALGORITHM
    · cases hexp : t.claims.exp with
      | none => simp [jwtDecode, hk, ha, hexp]
      | some e =>
        by_cases hle : e ≤ now <;> simp [jwtDecode, hk, ha, hexp, hle]
    · simp [jwtDecode, hk, ha]
    · simp [jwtDecode, hk, ha]
    · simp [jwtDecode, hk, ha]
  · intro credentials k hdec
    simp [get_current_user, hdec]

/-- C5 amended witness: a malformed token is denied with the collapsed
HTTPException 403 Token không hợp lệ. -/
theorem jwt_error_kinds_collapse_in_get_current_user_witness :
    get_current_user ⟨"secret", "HS256", 3600⟩ 1000 [] (.garbage "not-a-jwt") =
      .error ⟨403, "Token không hợp lệ"⟩ :=
  (jwt_error_kinds_collapse_in_get_current_user ⟨"secret", "HS256", 3600⟩ 1000 []
      ⟨⟨some "alice", some 500⟩, "secret", "HS256"⟩).2
    (.garbage "not-a-jwt") .invalidToken (by decide)

/-- C7: for every subject s and positive ttl t, the token issued for s with
ttl t passes the verification phase of get_current_user at issuance time
and yields exactly the subject s. -/
theorem verify_token_of_create_access_token
    (settings : Settings) (now t : Int) (s : String) (data : Claims)
    (hsub : data.sub = some s) (ht : 0 < t) :
    verify_token settings now (create_access_token settings now data (some t)) =
      .ok s := by
  have ht0 : ¬ t = 0 := by omega
  have hnow : ¬ now + t ≤ now := by omega
  simp [verify_token, create_access_token, jwtEncode, jwtDecode,
    timedeltaOrDefault, ht0, hnow, hsub]

/-- C7 witness: the token issued at time 0 for alice with ttl 60 verifies
to the subject alice. -/
theorem verify_token_of_create_access_token_witness :
    verify_token ⟨"secret", "HS256", 3600⟩ 0
        (create_access_token ⟨"secret", "HS256", 3600⟩ 0 ⟨some "alice", none⟩ (some 60)) =
      .ok "alice" :=
  verify_token_of_create_access_token ⟨"secret", "HS256", 3600⟩ 0 60 "alice"
    ⟨some "alice", none⟩ rfl (by decide)

/-- C8 counterexample: expires_delta is provided as the zero duration, yet
the issued exp claim is now plus the configured default 3600, not now plus
the provided ttl 0, so exp does not equal current time plus the given
expires_delta. -/
theorem create_access_token_zero_delta_counterexample :
    create_access_token ⟨"secret", "HS256", 3600⟩ 0 ⟨some "alice", none⟩ (some 0) =
      .encoded ⟨⟨some "alice", some 3600⟩, "secret", "HS256"⟩ ∧
    create_access_token ⟨"secret", "HS256", 3600⟩ 0 ⟨some "alice", none⟩ (some 0) ≠
      .encoded ⟨⟨some "alice", some 0⟩, "secret", "HS256"⟩ := by
  refine ⟨rfl, ?_⟩
  decide

/-- C8 amended: the issued token carries the payload claims with exp set to
now plus the ttl and is signed with the configured secret and the single
configured algorithm, where the ttl is the given expires_delta when it is
provided and nonzero, and the configured default lifetime when
expires_delta is omitted or equal to the zero duration. -/
theorem create_access_token_claims_and_signing
    (settings : Settings) (now : Int) (data : Claims) :
    (∀ d : Int, d ≠ 0 →
      create_access_token settings now data (some d) =
        .encoded ⟨⟨data.sub, some (now + d)⟩,
          settings.SECRET_KEY, settings.SECURITY_ALGORITHM⟩) ∧
    (∀ delta : Option Int, delta = none ∨ delta = some 0 →
      create_access_token settings now data delta =
        .encoded ⟨⟨data.sub, some (now + settings.ACCESS_TOKEN_EXPIRE_SECONDS)⟩,
          settings.SECRET_KEY, settings.SECURITY_ALGORITHM⟩) := by
  constructor
  · intro d hd
    simp [create_access_token, jwtEncode, timedeltaOrDefault, hd]
  · rintro delta (rfl | rfl) <;>
      simp [create_access_token, jwtEncode, timedeltaOrDefault]

/-- C8 amended witness: issuance at time 10 with the nonzero ttl 60 yields
the exp claim 70 under the secret and algorithm of the settings. -/
theorem create_access_token_claims_and_signing_witness :
    create_access_token ⟨"secret", "HS256", 3600⟩ 10 ⟨some "alice", none⟩ (some 60) =
      .encoded ⟨⟨some "alice", some 70⟩, "secret", "HS256"⟩ :=
  (create_access_token_claims_and_signing ⟨"secret", "HS256", 3600⟩ 10
      ⟨some "alice", none⟩).1 60 (by decide)

/-- C3: evaluated at a failing request whose service call raises an
exception with text boom, both handlers place the raw exception text and
the full traceback string into the message of the CustomException given to
the caller, instead of a stable denial code and message alone. -/
theorem api_user_error_bodies_contain_traceback :
    api_user_get (Except.error ⟨"boom", "Traceback: ZeroDivisionError"⟩ :
        Except PyException Unit) =
      .error ⟨400, "400", "boom: Traceback: ZeroDivisionError"⟩ ∧
    api_user_get_roles_of_user (Except.error ⟨"boom", "Traceback: ZeroDivisionError"⟩ :
        Except PyException Unit) =
      .error ⟨400, "400", "boom: Traceback: ZeroDivisionError"⟩ := by
  refine ⟨by decide, by decide⟩

end EventEase
